import Mathlib

/-!
Shallow embedding of `script_clean_single.py` (a dashboard monitor that
logs in, extracts posted project records, diffs them against a persisted
seen-store and notifies on new records), together with theorems checking
the natural-language specification against the code.

Python strings become `String`, dicts holding project fields become a
record structure, possibly-non-dict JSON items become an `Entry` sum,
exceptions become `Option`/explicit outcome flags, and the worker loop
becomes a step function on an explicit state.
-/

/-- Python string truthiness for `str`: non-empty. -/
def pyTruthy (s : String) : Bool := !(s == "")

/-- Whitespace characters removed by Python `str.strip()`. -/
def isPySpace (c : Char) : Bool :=
  c = ' ' || c = '\t' || c = '\n' || c = '\r' || c = '\x0b' || c = '\x0c'

/-- `str.strip()` on a character list. -/
def stripChars (l : List Char) : List Char :=
  ((l.dropWhile isPySpace).reverse.dropWhile isPySpace).reverse

/-- Python `str.strip()`. -/
def pyStrip (s : String) : String := String.mk (stripChars s.data)

/-- Left-to-right non-overlapping deletion of `pat` from the text, with
explicit fuel (the initial fuel is the text length, which always suffices,
since every step consumes at least one character when `pat` is non-empty);
models Python `s.replace(pat, "")` for non-empty `pat`. -/
def removeAllChars (pat : List Char) : Nat → List Char → List Char
  | _, [] => []
  | 0, s => s
  | fuel + 1, c :: rest =>
    if pat.isPrefixOf (c :: rest) && !pat.isEmpty then
      removeAllChars pat fuel (List.drop (pat.length - 1) rest)
    else
      c :: removeAllChars pat fuel rest

/-- Python `s.replace(pat, "")`. -/
def pyRemoveAll (pat s : String) : String :=
  String.mk (removeAllChars pat.data s.data.length s.data)

/-- Python `s.split(sep)` for a one-character separator, on character lists. -/
def splitChars (sep : Char) : List Char → List (List Char)
  | [] => [[]]
  | c :: rest =>
    match splitChars sep rest with
    | [] => [[c]]
    | h :: t => if c = sep then [] :: h :: t else (c :: h) :: t

/-- Python `s.split(sep)` for a one-character separator. -/
def pySplit (sep : Char) (s : String) : List String :=
  (splitChars sep s.data).map String.mk

/-- One extracted project record, with the exact keys built by
`extract_project_data_from_card` (lines 376-385). -/
structure PRec where
  id : String
  title : String
  categories : List String
  description : String
  location : String
  time_posted : String
  status : String
  detected_at : String
deriving DecidableEq, Repr

/-- An item of a seen-projects list as loaded from JSON: either a dict
(carrying the record fields; a dict missing the `"id"` key behaves like
`id = ""`, both are falsy under `p.get("id")`) or some non-dict value. -/
inductive Entry where
  | dict (r : PRec)
  | other
deriving DecidableEq, Repr

/-- The contents of the seen-store file as `load_seen_projects` finds it. -/
inductive StoreFile where
  | missing
  | unreadable
  | notList
  | list (entries : List Entry)
deriving Repr

def isDictB : Entry → Bool
  | .dict _ => true
  | .other => false

/-- `load_seen_projects` (lines 158-175): `[]` when the file is missing,
when `open`/`json.load` raises (`unreadable`), or when the payload is not
a list; otherwise the payload with non-dict items filtered out. -/
def load_seen_projects : StoreFile → List Entry
  | .missing => []
  | .unreadable => []
  | .notList => []
  | .list es => es.filter isDictB

def saveValidB : Entry → Bool
  | .dict r => pyTruthy r.id
  | .other => false

/-- An argument to `save_seen_projects`, which may fail to be a list. -/
inductive PyList where
  | notAList
  | list (entries : List Entry)

/-- `save_seen_projects` (lines 178-189): refuses a non-list argument
(no write, `none`); otherwise writes the dict entries with a truthy `id`
(`some` carries the written content; an OS-level write failure is caught
and logged by the source and is outside this embedding). -/
def save_seen_projects : PyList → Option (List Entry)
  | .notAList => none
  | .list es => some (es.filter saveValidB)

/-- The id set built by `filter_new_projects` (lines 199-204): ids of dict
entries with a truthy `id`.  The source uses a Python `set`, of which only
membership is consumed, so a list of the collected ids represents it. -/
def seen_ids (seen : List Entry) : List String :=
  seen.filterMap (fun e => match e with
    | .dict r => if pyTruthy r.id then some r.id else none
    | .other => none)

/-- The filter predicate of line 207:
`isinstance(p, dict) and p.get("id") and p["id"] not in seen_ids`. -/
def newEntryB (ids : List String) : Entry → Bool
  | .dict r => pyTruthy r.id && !(ids.contains r.id)
  | .other => false

/-- `filter_new_projects` (lines 192-207).  The defensive branch for a
non-list `seen_projects` argument cannot arise in the typed embedding. -/
def filter_new_projects (all_projects seen_projects : List Entry) : List Entry :=
  all_projects.filter (newEntryB (seen_ids seen_projects))

/-- The facts about one `div.card-block` element that the per-card
extractor (lines 333-387) reads.  An `Option` field is `none` when the
corresponding sub-locator matches nothing: for the title locator, whose
text is read unconditionally, a missing element makes the Playwright call
raise, which the function-wide `except` turns into `None`; the other
sub-locators are guarded by `count() > 0` checks. -/
structure Card where
  hasNeedCardInline : Bool
  titleText : Option String
  likeAjax : Option (Option String)
  catText : Option String
  descText : Option String
  locText : Option String
  postedText : Option String
  hasBadgeSuccess : Bool
deriving DecidableEq, Repr

/-- `re.search(r"/need/([^/]+)/", s)` capture group 1: at the leftmost
position where `"/need/"` is followed by at least one non-`'/'` character
and then a `'/'`, the maximal run of non-`'/'` characters after
`"/need/"`.  When the literal matches but the capture cannot close, the
scan resumes at the next start position, as the regex engine does. -/
def needIdSearch : List Char → Option (List Char)
  | [] => none
  | c :: rest =>
    if ("/need/".data).isPrefixOf (c :: rest) then
      let after := (c :: rest).drop 6
      let run := after.takeWhile (fun ch => ch ≠ '/')
      match run, after.drop run.length with
      | _ :: _, '/' :: _ => some run
      | _, _ => needIdSearch rest
    else needIdSearch rest

/-- The project id parsed from a `data-ajax-post` attribute value. -/
def extractNeedId (s : String) : Option String :=
  (needIdSearch s.data).map String.mk

/-- The required-title stage of `extract_project_data_from_card`
(lines 335-337): the stripped title text when the element exists and the
stripped text is truthy, else nothing. -/
def requiredTitle (c : Card) : Option String :=
  match c.titleText with
  | none => none
  | some t =>
    let title := pyStrip t
    if pyTruthy title then some title else none

/-- The required-id stage of `extract_project_data_from_card`
(lines 339-347): the id parsed from the like button's `data-ajax-post`
attribute when the button exists and the parse yields a truthy id. -/
def requiredId (c : Card) : Option String :=
  match (match c.likeAjax with
         | none => none
         | some attr => extractNeedId (attr.getD "")) with
  | none => none
  | some pid => if pyTruthy pid then some pid else none

/-- `extract_project_data_from_card` (lines 333-387); `now` stands for
`datetime.now().strftime(...)`. -/
def extract_project_data_from_card (c : Card) (now : String) : Option PRec :=
  match c.titleText with
  | none => none
  | some t =>
    let title := pyStrip t
    if !pyTruthy title then none
    else
      let project_id : Option String :=
        match c.likeAjax with
        | none => none
        | some attr => extractNeedId (attr.getD "")
      match project_id with
      | none => none
      | some pid =>
        if !pyTruthy pid then none
        else
          let categories : List String :=
            match c.catText with
            | none => []
            | some ct =>
              let cat_text := pyStrip ct
              if pyTruthy cat_text then
                ((pySplit '|' cat_text).map pyStrip).filter pyTruthy
              else []
          let description : String :=
            match c.descText with
            | none => ""
            | some d => pyStrip d
          let location : String :=
            match c.locText with
            | none => ""
            | some l => pyStrip (pyRemoveAll "Remote" l)
          let time_posted : String :=
            match c.postedText with
            | none => "Unknown"
            | some p => pyStrip (pyRemoveAll "ago" (pyRemoveAll "Posted" (pyStrip p)))
          let status : String :=
            if c.hasBadgeSuccess then "New Project" else "Posted"
          some { id := pid, title := title, categories := categories,
                 description := description, location := location,
                 time_posted := time_posted, status := status,
                 detected_at := now }

/-- The dashboard page as `scan_for_projects` sees it: whether the wait
for `.need-card-inline-name` times out, and the `div.card-block`
elements. -/
structure DashPage where
  selectorTimeout : Bool
  cards : List Card
deriving Repr

/-- The card loop of `scan_for_projects` (lines 397-402). -/
def scanCards (now : String) : List Card → List PRec
  | [] => []
  | c :: cs =>
    if !c.hasNeedCardInline then scanCards now cs
    else
      match extract_project_data_from_card c now with
      | none => scanCards now cs
      | some r =>
        if pyTruthy r.id && pyTruthy r.title then r :: scanCards now cs
        else scanCards now cs

/-- `scan_for_projects` (lines 390-412): on a selector timeout the
`PlaywrightTimeoutError` handler returns `[]`. -/
def scan_for_projects (pg : DashPage) (now : String) : List PRec :=
  if pg.selectorTimeout then []
  else scanCards now pg.cards

/-- The page-level actions the session code performs. -/
inductive LAct where
  | navigate
  | typeIdentity
  | typeCredential
  | pressContinue
  | pressNext
  | clickLogin
  | clickSubmit
  | saveSession
deriving DecidableEq, Repr

/-- The page/environment facts `setup_session` and `perform_login` react
to.  A `...Fails`/`...Appears` flag stands for whether the corresponding
Playwright call raises or the awaited element shows up in time. -/
structure LoginEnv where
  navFails : Bool
  loggedInMarker : Bool
  loginNavFails : Bool
  emailFieldAppears : Bool
  emailValue : String
  emailReadonly : Bool
  hasContinue : Bool
  hasNext : Bool
  passwordFieldAppears : Bool
  hasLoginButton : Bool
  postLoginMarkerAppears : Bool
  saveStateOk : Bool
deriving DecidableEq, Repr

/-- `is_logged_in` (lines 224-230): the marker count check, with any
raised error already folded into a `false` answer. -/
def is_logged_in (e : LoginEnv) : Bool := e.loggedInMarker

/-- `perform_login` (lines 233-299): the boolean result and the actions
performed against the page, in order.  The email value is typed unless
the field is readonly and already holds a truthy (stripped) value; the
interstitial Continue/Next control is clicked only when present; the
submit falls back to a generic submit control when no Login button
exists; any step's timeout aborts with `false`. -/
def perform_login (e : LoginEnv) : Bool × List LAct :=
  if e.loginNavFails then (false, [.navigate])
  else if !e.emailFieldAppears then (false, [.navigate])
  else
    let typesEmail := !(e.emailReadonly && pyTruthy (pyStrip e.emailValue))
    let acts1 := [LAct.navigate] ++ (if typesEmail then [LAct.typeIdentity] else [])
    let acts2 := acts1 ++
      (if e.hasContinue then [LAct.pressContinue]
       else if e.hasNext then [LAct.pressNext] else [])
    if !e.passwordFieldAppears then (false, acts2)
    else
      let acts3 := acts2 ++ [LAct.typeCredential] ++
        [if e.hasLoginButton then LAct.clickLogin else LAct.clickSubmit]
      (e.postLoginMarkerAppears, acts3)

/-- `setup_session` (lines 302-330): navigate, and if the authenticated
marker is already present return success at once; otherwise run
`perform_login` and, on its success, persist the session blob (a failure
to persist is only warned about). -/
def setup_session (e : LoginEnv) : Bool × List LAct :=
  if e.navFails then (false, [.navigate])
  else if is_logged_in e then (true, [.navigate])
  else
    let res := perform_login e
    (res.1, [LAct.navigate] ++ res.2 ++
      (if res.1 && e.saveStateOk then [LAct.saveSession] else []))

/-- Everything one `run_once` cycle reads from the outside world. -/
structure CycleEnv where
  loginEnv : LoginEnv
  storeFile : StoreFile
  page : DashPage
  now : String
deriving Repr

/-- `run_once` (lines 415-519), at the level the claims are about:
returns the cycle's boolean outcome, the seen-store content written by
`save_seen_projects` (`none` when no save happens), and the list of
`send_notification` results (which the source discards).  The source
interleaves notify and append per record; since `send_notification`
catches all its own exceptions and only returns a boolean, the net list
effect is the bulk append modelled here.  Browser-launch failures and
crashes outside these steps are caught and yield `False`, like the
session-failure branch. -/
def run_once (env : CycleEnv) (notify : PRec → Bool) :
    Bool × Option (List Entry) × List Bool :=
  if !(setup_session env.loginEnv).1 then (false, none, [])
  else
    let seen := load_seen_projects env.storeFile
    let allPs := scan_for_projects env.page env.now
    if allPs.isEmpty then (true, none, [])
    else
      let allE := allPs.map Entry.dict
      let newPs := filter_new_projects allE seen
      if newPs.isEmpty then (true, none, [])
      else
        let notes := newPs.map (fun e => match e with
          | .dict r => notify r
          | .other => false)
        (true, save_seen_projects (.list (seen ++ newPs)), notes)

/-- The backoff state of `worker_loop` (lines 545-547). -/
structure BackoffState where
  consecutiveFailures : Nat
  backoffSeconds : Nat
deriving DecidableEq, Repr

/-- Lines 545-547: `backoff_seconds = 120`, `consecutive_failures = 0`. -/
def initBackoff : BackoffState := ⟨0, 120⟩

/-- The success branch (lines 564-569) resets the backoff state. -/
def successReset : BackoffState := ⟨0, 120⟩

/-- The failure branch (lines 575-584): the cycle sleeps for the current
backoff, then the backoff doubles, capped at `max_backoff = 900`.
Returns (sleep applied on this failure, next backoff state). -/
def stepFailure (s : BackoffState) : Nat × BackoffState :=
  (s.backoffSeconds, ⟨s.consecutiveFailures + 1, min (s.backoffSeconds * 2) 900⟩)

/-- The backoff state after `n` consecutive failures from a fresh start. -/
def afterFails : Nat → BackoffState
  | 0 => initBackoff
  | n + 1 => (stepFailure (afterFails n)).2

/-- The sleep applied on failure number `n + 1` of a consecutive run. -/
def failureDelay (n : Nat) : Nat := (stepFailure (afterFails n)).1

/-- The configuration the worker loop and watchdog read. -/
structure WConfig where
  checkIntervalSeconds : Nat
  watchdogRestartSeconds : Nat
  watchdogMaxCycles : Nat
deriving Repr

/-- One completed `run_once` invocation as the loop observes it: its
boolean outcome and how long it took (`elapsed`, whole seconds). -/
structure CycleOutcome where
  ok : Bool
  duration : Nat
deriving Repr

/-- The loop-carried state: process uptime (cycle time plus sleep time,
as `time.time() - start_time` measures), completed cycle count, backoff. -/
structure LoopState where
  uptime : Nat
  cycleCount : Nat
  backoff : BackoffState
deriving DecidableEq, Repr

def initLoopState : LoopState := ⟨0, 0, initBackoff⟩

/-- Lines 561-584: account a completed cycle (count, uptime, backoff) and
compute the sleep the loop would take; on success the sleep is
`max(0, interval - elapsed)` (natural subtraction), on failure the
current backoff. -/
def afterCycle (cfg : WConfig) (st : LoopState) (c : CycleOutcome) :
    LoopState × Nat :=
  if c.ok then
    ({ uptime := st.uptime + c.duration, cycleCount := st.cycleCount + 1,
       backoff := successReset },
     cfg.checkIntervalSeconds - c.duration)
  else
    ({ uptime := st.uptime + c.duration, cycleCount := st.cycleCount + 1,
       backoff := (stepFailure st.backoff).2 },
     (stepFailure st.backoff).1)

/-- The watchdog condition of lines 590 and 599, checked after a cycle
completes (and after `run_once`'s cleanup) and before the sleep: a
positive uptime ceiling reached, or a positive cycle ceiling reached;
a ceiling of 0 disables that check. -/
def watchdogFires (cfg : WConfig) (st : LoopState) : Bool :=
  (decide (0 < cfg.watchdogRestartSeconds)
      && decide (cfg.watchdogRestartSeconds ≤ st.uptime))
    || (decide (0 < cfg.watchdogMaxCycles)
      && decide (cfg.watchdogMaxCycles ≤ st.cycleCount))

/-- How a (finitely observed) run of `worker_loop` ends: `os._exit(code)`
from the watchdog, or the observed cycle outcomes exhausted with the loop
still running. -/
inductive LoopResult where
  | exited (code : Nat) (st : LoopState)
  | running (st : LoopState)
deriving DecidableEq, Repr

def exitOf : LoopResult → Option (Nat × LoopState)
  | .exited code st => some (code, st)
  | .running _ => none

/-- `worker_loop` (lines 549-608) over a finite list of cycle outcomes:
each iteration runs a cycle, updates count/uptime/backoff, checks the
watchdog (exiting with status 1 before sleeping when it fires), and
otherwise sleeps, which adds the sleep to the uptime the next check
sees. -/
def runLoop (cfg : WConfig) (st : LoopState) : List CycleOutcome → LoopResult
  | [] => .running st
  | c :: cs =>
    let stepped := afterCycle cfg st c
    if watchdogFires cfg stepped.1 then .exited 1 stepped.1
    else runLoop cfg { stepped.1 with uptime := stepped.1.uptime + stepped.2 } cs

/-- The post-cycle (pre-sleep) states the watchdog inspects, one per
cycle, had the loop never exited. -/
def loopStates (cfg : WConfig) (st : LoopState) : List CycleOutcome → List LoopState
  | [] => []
  | c :: cs =>
    let stepped := afterCycle cfg st c
    stepped.1 ::
      loopStates cfg { stepped.1 with uptime := stepped.1.uptime + stepped.2 } cs

lemma pyTruthy_eq_true {s : String} : pyTruthy s = true ↔ s ≠ "" := by
  simp [pyTruthy]

lemma seen_ids_map_dict (seen : List PRec) (h : ∀ r ∈ seen, r.id ≠ "") :
    seen_ids (seen.map Entry.dict) = seen.map PRec.id := by
  induction seen with
  | nil => rfl
  | cons a t ih =>
    have ha : pyTruthy a.id = true :=
      pyTruthy_eq_true.mpr (h a (List.mem_cons_self a t))
    simp only [List.map_cons, seen_ids, List.filterMap_cons, ha, if_pos]
    have := ih (fun r hr => h r (List.mem_cons_of_mem _ hr))
    simp only [seen_ids] at this
    rw [this]

lemma filter_new_projects_idem (A S : List Entry) :
    filter_new_projects (filter_new_projects A S) S = filter_new_projects A S := by
  unfold filter_new_projects
  rw [List.filter_filter]
  exact List.filter_congr (fun x _ => by rw [Bool.and_self])

/-- C1: on lists of records (dicts with non-empty ids), `filter_new_projects`
returns exactly the members of `all` whose `id` is not among the ids of
`seen`; no returned record has an id of `seen`; running it again over its
own output is the identity; and the output is a sublist of `all`, so the
relative order of `all` is preserved. -/
theorem filter_new_projects_spec (all seen : List PRec)
    (hall : ∀ r ∈ all, r.id ≠ "") (hseen : ∀ r ∈ seen, r.id ≠ "") :
    filter_new_projects (all.map Entry.dict) (seen.map Entry.dict)
        = (all.filter (fun r => !((seen.map PRec.id).contains r.id))).map Entry.dict
      ∧ (∀ r : PRec,
          Entry.dict r ∈ filter_new_projects (all.map Entry.dict) (seen.map Entry.dict) →
            r.id ∉ seen.map PRec.id)
      ∧ filter_new_projects
            (filter_new_projects (all.map Entry.dict) (seen.map Entry.dict))
            (seen.map Entry.dict)
          = filter_new_projects (all.map Entry.dict) (seen.map Entry.dict)
      ∧ (filter_new_projects (all.map Entry.dict) (seen.map Entry.dict)).Sublist
          (all.map Entry.dict) := by
  have heq : filter_new_projects (all.map Entry.dict) (seen.map Entry.dict)
      = (all.filter (fun r => !((seen.map PRec.id).contains r.id))).map Entry.dict := by
    unfold filter_new_projects
    rw [seen_ids_map_dict seen hseen, List.filter_map]
    congr 1
    refine List.filter_congr (fun r hr => ?_)
    have : pyTruthy r.id = true := pyTruthy_eq_true.mpr (hall r hr)
    simp [newEntryB, this, Function.comp]
  refine ⟨heq, ?_, filter_new_projects_idem _ _, ?_⟩
  · intro r hr
    rw [heq] at hr
    simp only [List.mem_map] at hr
    obtain ⟨r', hr', hrr⟩ := hr
    obtain rfl : r' = r := by simpa using hrr
    simp only [List.mem_filter] at hr'
    simpa using hr'.2
  · exact List.filter_sublist _

/-- A sample record used by concrete witnesses. -/
def sampleRec (i t : String) : PRec :=
  ⟨i, t, [], "", "", "Unknown", "Posted", "2024-01-01 00:00:00"⟩

theorem filter_new_projects_spec_witness :
    filter_new_projects
        ([sampleRec "a" "A", sampleRec "b" "B"].map Entry.dict)
        ([sampleRec "a" "Seen"].map Entry.dict)
      = (([sampleRec "a" "A", sampleRec "b" "B"].filter
          (fun r => !(([sampleRec "a" "Seen"].map PRec.id).contains r.id))).map
          Entry.dict) :=
  (filter_new_projects_spec [sampleRec "a" "A", sampleRec "b" "B"]
    [sampleRec "a" "Seen"] (by decide) (by decide)).1

lemma extract_none_of_required_none (c : Card) (now : String)
    (h : requiredTitle c = none ∨ requiredId c = none) :
    extract_project_data_from_card c now = none := by
  unfold requiredTitle requiredId at h
  unfold extract_project_data_from_card
  cases htt : c.titleText with
  | none => simp
  | some t =>
    simp only [htt] at h ⊢
    by_cases hty : pyTruthy (pyStrip t)
    · simp only [hty, if_pos, reduceIte, Bool.not_true, Bool.false_eq_true,
        if_false] at h ⊢
      cases hid : (match c.likeAjax with
                   | none => none
                   | some attr => extractNeedId (attr.getD "")) with
      | none => simp [hid]
      | some pid =>
        simp only [hid] at h ⊢
        by_cases hp : pyTruthy pid
        · simp [hp] at h
        · simp [hp]
    · simp [hty]

/-- Whether both required fields of a card are extractable. -/
def requiredOkB (c : Card) : Bool :=
  (requiredTitle c).isSome && (requiredId c).isSome

lemma scanCards_filter_required (now : String) (cards : List Card) :
    scanCards now (cards.filter requiredOkB) = scanCards now cards := by
  induction cards with
  | nil => rfl
  | cons c cs ih =>
    by_cases hreq : requiredOkB c = true
    · simp only [List.filter_cons, hreq, if_pos, scanCards]
      rw [ih]
    · have hnone : extract_project_data_from_card c now = none := by
        apply extract_none_of_required_none
        by_cases h1 : requiredTitle c = none
        · exact Or.inl h1
        · refine Or.inr ?_
          cases h2 : requiredId c with
          | none => rfl
          | some p =>
            exact absurd
              (by simp [requiredOkB, Option.isSome_iff_ne_none, h1, h2]) hreq
      simp only [List.filter_cons, hreq, if_neg, Bool.false_eq_true, if_false,
        scanCards, hnone]
      cases hn : c.hasNeedCardInline <;> simp [hn, ih]

/-- C2: a card whose required title or required id cannot be extracted is
rejected by the per-card extractor (which returns nothing for it, for any
values of the optional fields), and removing all such cards from a page
leaves the output of `scan_for_projects` unchanged — so such a card never
contributes to it. -/
theorem extract_requires_id_title (now : String) :
    (∀ c : Card, requiredTitle c = none ∨ requiredId c = none →
        extract_project_data_from_card c now = none)
    ∧ ∀ pg : DashPage,
        scan_for_projects { pg with cards := pg.cards.filter requiredOkB } now
          = scan_for_projects pg now := by
  refine ⟨fun c h => extract_none_of_required_none c now h, fun pg => ?_⟩
  by_cases h : pg.selectorTimeout <;>
    simp [scan_for_projects, h, scanCards_filter_required]

/-- A card with every optional field present but no usable title. -/
def cardNoTitle : Card :=
  { hasNeedCardInline := true, titleText := none,
    likeAjax := some (some "/need/abc/x/"), catText := some "Cats",
    descText := some "D", locText := some "L",
    postedText := some "Posted 1h ago", hasBadgeSuccess := true }

theorem extract_requires_id_title_witness :
    extract_project_data_from_card cardNoTitle "2024-01-01 00:00:00" = none :=
  (extract_requires_id_title "2024-01-01 00:00:00").1 cardNoTitle (Or.inl rfl)

/-- C8: a card whose required title and id extract successfully and whose
optional sub-elements are all absent yields a record with `categories = []`,
`description = ""`, `location = ""`, `time_posted = "Unknown"` and
`status = "Posted"` (and the extraction-time stamp). -/
theorem extract_all_optional_defaults (c : Card) (now t pid : String)
    (h1 : requiredTitle c = some t) (h2 : requiredId c = some pid)
    (h3 : c.catText = none) (h4 : c.descText = none)
    (h5 : c.locText = none) (h6 : c.postedText = none)
    (h7 : c.hasBadgeSuccess = false) :
    extract_project_data_from_card c now
      = some { id := pid, title := t, categories := [], description := "",
               location := "", time_posted := "Unknown", status := "Posted",
               detected_at := now } := by
  unfold requiredTitle at h1
  unfold requiredId at h2
  unfold extract_project_data_from_card
  cases htt : c.titleText with
  | none => simp [htt] at h1
  | some u =>
    simp only [htt] at h1 ⊢
    by_cases hty : pyTruthy (pyStrip u)
    · replace h1 : pyStrip u = t := by simpa [hty] using h1
      cases hid : (match c.likeAjax with
                   | none => none
                   | some attr => extractNeedId (attr.getD "")) with
      | none => simp [hid] at h2
      | some p =>
        simp only [hid] at h2 ⊢
        by_cases hp : pyTruthy p
        · replace h2 : p = pid := by simpa [hp] using h2
          subst h2
          have hty2 : pyTruthy t = true := h1 ▸ hty
          simp [hty, hty2, hp, h1, h3, h4, h5, h6, h7]
        · simp [hp] at h2
    · simp [hty] at h1

/-- A card whose optional sub-elements are all absent. -/
def cardBareOpt : Card :=
  { hasNeedCardInline := true, titleText := some "T",
    likeAjax := some (some "/need/zz9/x/"), catText := none,
    descText := none, locText := none, postedText := none,
    hasBadgeSuccess := false }

theorem extract_all_optional_defaults_witness :
    extract_project_data_from_card cardBareOpt "2024-01-01 00:00:00"
      = some { id := "zz9", title := "T", categories := [], description := "",
               location := "", time_posted := "Unknown", status := "Posted",
               detected_at := "2024-01-01 00:00:00" } :=
  extract_all_optional_defaults cardBareOpt "2024-01-01 00:00:00" "T" "zz9"
    (by decide) (by decide) rfl rfl rfl rfl rfl

/-- C6: `load_seen_projects` never fails its caller — a missing file, a
read/parse failure and a non-list payload all load as the empty store, a
list loads as its dict entries, every loaded entry is a dict, the diff of
any extraction against a store loaded from a non-list payload degrades to
the plain validity filter (nothing is suppressed and nothing crashes),
and saving any loaded store takes the write path. -/
theorem load_seen_projects_total :
    load_seen_projects .missing = []
    ∧ load_seen_projects .unreadable = []
    ∧ load_seen_projects .notList = []
    ∧ (∀ es, load_seen_projects (.list es) = es.filter isDictB)
    ∧ (∀ src, (load_seen_projects src).all isDictB = true)
    ∧ (∀ all_projects, filter_new_projects all_projects (load_seen_projects .notList)
        = all_projects.filter saveValidB)
    ∧ (∀ src, save_seen_projects (.list (load_seen_projects src))
        = some ((load_seen_projects src).filter saveValidB)) := by
  refine ⟨rfl, rfl, rfl, fun es => rfl, fun src => ?_, fun all_projects => ?_, fun src => rfl⟩
  · cases src with
    | list es =>
      simp only [load_seen_projects, List.all_eq_true]
      exact fun e he => (List.mem_filter.mp he).2
    | missing => rfl
    | unreadable => rfl
    | notList => rfl
  · refine List.filter_congr (fun e _ => ?_)
    cases e <;> simp [newEntryB, saveValidB, seen_ids, load_seen_projects]

/-- C7: when the post-restore page already shows the authenticated
marker, `setup_session` succeeds at once, having only navigated — it
performs no step of the login flow, in particular it never types the
identity or the credential value. -/
theorem setup_session_short_circuit (e : LoginEnv)
    (h1 : e.navFails = false) (h2 : e.loggedInMarker = true) :
    setup_session e = (true, [LAct.navigate])
    ∧ LAct.typeIdentity ∉ (setup_session e).2
    ∧ LAct.typeCredential ∉ (setup_session e).2 := by
  have hs : setup_session e = (true, [LAct.navigate]) := by
    simp [setup_session, is_logged_in, h1, h2]
  refine ⟨hs, ?_, ?_⟩ <;> rw [hs] <;> simp

/-- A session environment whose restored blob is already authenticated. -/
def loggedSession : LoginEnv :=
  { navFails := false, loggedInMarker := true, loginNavFails := false,
    emailFieldAppears := true, emailValue := "", emailReadonly := false,
    hasContinue := false, hasNext := false, passwordFieldAppears := true,
    hasLoginButton := true, postLoginMarkerAppears := true,
    saveStateOk := true }

theorem setup_session_short_circuit_witness :
    setup_session loggedSession = (true, [LAct.navigate])
    ∧ LAct.typeIdentity ∉ (setup_session loggedSession).2
    ∧ LAct.typeCredential ∉ (setup_session loggedSession).2 :=
  setup_session_short_circuit loggedSession rfl rfl

lemma afterFails_backoff (n : Nat) :
    (afterFails n).backoffSeconds = min (120 * 2 ^ n) 900 := by
  induction n with
  | zero => rfl
  | succ n ih =>
    show min ((afterFails n).backoffSeconds * 2) 900 = _
    rw [ih, pow_succ, ← mul_assoc]
    generalize (120 * 2 ^ n) = a
    omega

/-- C3: from a fresh backoff state the sleep applied on consecutive
failure number `n + 1` is `min (120 * 2 ^ n) 900`, so the delays run
120, 240, 480, 900, 900, …; a successful cycle resets the loop's backoff
state to the initial one (zero consecutive failures), after which the
next failure sleeps 120 again; and inside the loop a failed cycle sleeps
exactly the pre-failure backoff value. -/
theorem backoff_policy :
    (∀ n, failureDelay n = min (120 * 2 ^ n) 900)
    ∧ (List.range 5).map failureDelay = [120, 240, 480, 900, 900]
    ∧ successReset = initBackoff
    ∧ successReset.consecutiveFailures = 0
    ∧ (stepFailure successReset).1 = 120
    ∧ (∀ (cfg : WConfig) (st : LoopState) (d : Nat),
        (afterCycle cfg st ⟨true, d⟩).1.backoff = successReset)
    ∧ (∀ (cfg : WConfig) (st : LoopState) (d : Nat),
        (afterCycle cfg st ⟨false, d⟩).2 = st.backoff.backoffSeconds)
    ∧ ∀ (cfg : WConfig) (st : LoopState) (d : Nat),
        (afterCycle cfg st ⟨false, d⟩).1.backoff.consecutiveFailures
          = st.backoff.consecutiveFailures + 1 := by
  refine ⟨fun n => afterFails_backoff n, by decide, rfl, rfl, rfl,
    fun cfg st d => rfl, fun cfg st d => rfl, fun cfg st d => rfl⟩

/-- C9: the worker loop exits exactly when the watchdog condition first
holds at one of the post-cycle (post-cleanup, pre-sleep) states, it exits
with status 1 (non-zero) carrying that state — so termination happens at
the end of the first cycle whose cumulative uptime reaches the ceiling,
never mid-cycle — and the fired condition is a positive uptime ceiling
reached by the uptime, or a positive cycle ceiling reached by the cycle
count, a ceiling of 0 disabling its check. -/
theorem worker_watchdog_spec :
    (∀ (cfg : WConfig) (st : LoopState) (cycles : List CycleOutcome),
        exitOf (runLoop cfg st cycles)
          = ((loopStates cfg st cycles).find? (watchdogFires cfg)).map
              (fun s => (1, s)))
    ∧ ∀ (cfg : WConfig) (s : LoopState),
        watchdogFires cfg s = true ↔
          ((0 < cfg.watchdogRestartSeconds
              ∧ cfg.watchdogRestartSeconds ≤ s.uptime)
            ∨ (0 < cfg.watchdogMaxCycles
              ∧ cfg.watchdogMaxCycles ≤ s.cycleCount)) := by
  constructor
  · intro cfg st cycles
    induction cycles generalizing st with
    | nil => rfl
    | cons c cs ih =>
      simp only [runLoop, loopStates]
      by_cases h : watchdogFires cfg (afterCycle cfg st c).1 = true
      · rw [List.find?_cons_of_pos _ h]
        simp [h, exitOf]
      · rw [List.find?_cons_of_neg _ (by simp [h])]
        simp only [h, Bool.false_eq_true, if_false]
        exact ih _
  · intro cfg s
    simp [watchdogFires]

/-- C4 (amended): an extraction timeout makes `scan_for_projects` hand an
empty list to `run_once`, which treats it as a success outcome without
touching the store — the same boolean outcome a genuinely empty
extraction produces — so a timeout is recoverable but not a distinct
failure outcome of `run_once`. -/
theorem run_once_timeout_success (env : CycleEnv) (f : PRec → Bool)
    (ht : env.page.selectorTimeout = true)
    (hs : (setup_session env.loginEnv).1 = true) :
    scan_for_projects env.page env.now = []
    ∧ (run_once env f).1 = true
    ∧ (run_once env f).2.1 = none
    ∧ ∀ (env2 : CycleEnv) (g : PRec → Bool),
        (setup_session env2.loginEnv).1 = true → env2.page.cards = [] →
          (run_once env2 g).1 = true := by
  have hscan : scan_for_projects env.page env.now = [] := by
    simp [scan_for_projects, ht]
  refine ⟨hscan, ?_, ?_, ?_⟩
  · simp [run_once, hs, hscan]
  · simp [run_once, hs, hscan]
  · intro env2 g hs2 hc2
    have hscan2 : scan_for_projects env2.page env2.now = [] := by
      by_cases h : env2.page.selectorTimeout <;>
        simp [scan_for_projects, h, hc2, scanCards]
    simp [run_once, hs2, hscan2]

/-- A card that extracts successfully when the page loads. -/
def cardAbc : Card :=
  { hasNeedCardInline := true, titleText := some "Alpha",
    likeAjax := some (some "/need/abc/x/"), catText := none,
    descText := none, locText := none, postedText := none,
    hasBadgeSuccess := false }

/-- A cycle whose candidate-container wait times out while a card that
would extract is present behind it. -/
def envTimeoutPage : CycleEnv :=
  { loginEnv := loggedSession, storeFile := .missing,
    page := { selectorTimeout := true, cards := [cardAbc] },
    now := "2024-01-01 00:00:00" }

theorem run_once_timeout_not_failure_counterexample :
    (run_once envTimeoutPage (fun _ => true)).1 = true
    ∧ scan_for_projects envTimeoutPage.page envTimeoutPage.now = []
    ∧ scan_for_projects { envTimeoutPage.page with selectorTimeout := false }
        envTimeoutPage.now ≠ [] := by
  refine ⟨rfl, rfl, ?_⟩
  decide

theorem run_once_timeout_success_witness :
    (run_once envTimeoutPage (fun _ => true)).1 = true :=
  (run_once_timeout_success envTimeoutPage (fun _ => true) rfl rfl).2.1

lemma seen_ids_append (a b : List Entry) :
    seen_ids (a ++ b) = seen_ids a ++ seen_ids b := by
  simp [seen_ids]

lemma seen_ids_filter_save (l : List Entry) :
    seen_ids (l.filter saveValidB) = seen_ids l := by
  induction l with
  | nil => rfl
  | cons e t ih =>
    cases e with
    | dict r =>
      by_cases h : pyTruthy r.id <;>
        simp only [seen_ids, List.filter_cons, saveValidB, h,
          List.filterMap_cons, Bool.false_eq_true, if_true, if_false] <;>
        simpa [seen_ids] using ih
    | other =>
      simp only [seen_ids, List.filter_cons, saveValidB, List.filterMap_cons,
        Bool.false_eq_true, if_false]
      simpa [seen_ids] using ih

lemma mem_seen_ids {x : String} {l : List Entry} :
    x ∈ seen_ids l ↔
      ∃ r : PRec, Entry.dict r ∈ l ∧ pyTruthy r.id = true ∧ r.id = x := by
  simp only [seen_ids, List.mem_filterMap]
  constructor
  · rintro ⟨e, he, hx⟩
    cases e with
    | dict r =>
      by_cases h : pyTruthy r.id
      · exact ⟨r, he, h, by simpa [h] using hx⟩
      · simp [h] at hx
    | other => simp at hx
  · rintro ⟨r, hr, h1, rfl⟩
    exact ⟨.dict r, hr, by simp [h1]⟩

lemma new_ids_not_seen (all seen : List Entry) :
    ∀ x ∈ seen_ids (filter_new_projects all seen), x ∉ seen_ids seen := by
  intro x hx
  rw [mem_seen_ids] at hx
  obtain ⟨r, hr, hty, rfl⟩ := hx
  unfold filter_new_projects at hr
  rw [List.mem_filter] at hr
  have hnew := hr.2
  simp only [newEntryB, Bool.and_eq_true, Bool.not_eq_true'] at hnew
  intro hmem
  have hc : (seen_ids seen).contains r.id = true := List.elem_eq_true_of_mem hmem
  rw [hnew.2] at hc
  cases hc

/-- C5 (amended): one cycle's store update — append the diffed new
records to the loaded list and persist it through `save_seen_projects` —
keeps the ids of the persisted store pairwise distinct, PROVIDED the
freshly extracted batch itself carries no duplicate id; the source does
not deduplicate inside one extraction, so the unconditional claim fails
(see the counterexample). -/
theorem store_ids_nodup_after_cycle (seen all : List Entry)
    (h1 : (seen_ids seen).Nodup) (h2 : (seen_ids all).Nodup) :
    (seen_ids
        ((save_seen_projects
            (.list (seen ++ filter_new_projects all seen))).getD [])).Nodup := by
  have hsave :
      (save_seen_projects (.list (seen ++ filter_new_projects all seen))).getD []
        = (seen ++ filter_new_projects all seen).filter saveValidB := rfl
  rw [hsave, seen_ids_filter_save, seen_ids_append, List.nodup_append]
  refine ⟨h1, ?_, ?_⟩
  · have hsub : (seen_ids (filter_new_projects all seen)).Sublist (seen_ids all) := by
      unfold filter_new_projects
      exact (List.filter_sublist all).filterMap _
    exact hsub.nodup h2
  · intro a ha hanew
    exact new_ids_not_seen all seen a hanew ha

theorem store_ids_nodup_after_cycle_witness :
    (seen_ids
        ((save_seen_projects
            (.list ([Entry.dict (sampleRec "a" "A")]
              ++ filter_new_projects [Entry.dict (sampleRec "b" "B")]
                  [Entry.dict (sampleRec "a" "A")]))).getD [])).Nodup :=
  store_ids_nodup_after_cycle [Entry.dict (sampleRec "a" "A")]
    [Entry.dict (sampleRec "b" "B")] (by decide) (by decide)

/-- Two dashboard cards carrying the same need id. -/
def cardDupA : Card :=
  { hasNeedCardInline := true, titleText := some "Alpha",
    likeAjax := some (some "/need/abc/x/"), catText := none,
    descText := none, locText := none, postedText := none,
    hasBadgeSuccess := false }

def cardDupB : Card :=
  { hasNeedCardInline := true, titleText := some "Beta",
    likeAjax := some (some "/need/abc/x/"), catText := none,
    descText := none, locText := none, postedText := none,
    hasBadgeSuccess := false }

/-- A cycle whose extraction yields two records with the same id. -/
def envDupIds : CycleEnv :=
  { loginEnv := loggedSession, storeFile := .missing,
    page := { selectorTimeout := false, cards := [cardDupA, cardDupB] },
    now := "2024-01-01 00:00:00" }

theorem store_ids_nodup_counterexample :
    (run_once envDupIds (fun _ => true)).1 = true
    ∧ ¬ (seen_ids ((run_once envDupIds (fun _ => true)).2.1.getD [])).Nodup := by
  refine ⟨rfl, ?_⟩
  decide

/-- C10: the boolean returned by the notifier is discarded — the cycle
outcome and the persisted store of `run_once` do not depend on the notify
function at all; every diffed new record is appended to the seen list and
survives the save filter into the persisted store; and in any later cycle
the diff against that persisted store returns no record with its id, so
it is never notified again. -/
theorem run_once_discards_notify_result (env : CycleEnv) (f g : PRec → Bool)
    (seen all later : List Entry) (r : PRec)
    (hr : Entry.dict r ∈ filter_new_projects all seen) :
    ((run_once env f).1 = (run_once env g).1
      ∧ (run_once env f).2.1 = (run_once env g).2.1)
    ∧ Entry.dict r ∈ seen ++ filter_new_projects all seen
    ∧ Entry.dict r ∈
        (save_seen_projects (.list (seen ++ filter_new_projects all seen))).getD []
    ∧ ∀ r2 : PRec,
        Entry.dict r2 ∈ filter_new_projects later
            ((save_seen_projects
                (.list (seen ++ filter_new_projects all seen))).getD [])
          → r2.id ≠ r.id := by
  have hty : pyTruthy r.id = true := by
    unfold filter_new_projects at hr
    have := (List.mem_filter.mp hr).2
    simp only [newEntryB, Bool.and_eq_true] at this
    exact this.1
  have hmemapp : Entry.dict r ∈ seen ++ filter_new_projects all seen :=
    List.mem_append_right _ hr
  have hsave :
      (save_seen_projects (.list (seen ++ filter_new_projects all seen))).getD []
        = (seen ++ filter_new_projects all seen).filter saveValidB := rfl
  have hmemstore : Entry.dict r ∈
      (save_seen_projects (.list (seen ++ filter_new_projects all seen))).getD [] := by
    rw [hsave]
    exact List.mem_filter.mpr ⟨hmemapp, by simpa [saveValidB] using hty⟩
  refine ⟨?_, hmemapp, hmemstore, ?_⟩
  · constructor <;>
    · unfold run_once
      by_cases h1 : (setup_session env.loginEnv).1 <;> simp only [h1] <;>
        [skip; rfl]
      by_cases h2 : (scan_for_projects env.page env.now).isEmpty <;>
        simp only [h2] <;> [rfl; skip]
      by_cases h3 : (filter_new_projects
          ((scan_for_projects env.page env.now).map Entry.dict)
          (load_seen_projects env.storeFile)).isEmpty <;>
        simp [h3]
  · intro r2 h2 hEq
    have hidstore : r.id ∈ seen_ids
        ((save_seen_projects (.list (seen ++ filter_new_projects all seen))).getD []) :=
      mem_seen_ids.mpr ⟨r, hmemstore, hty, rfl⟩
    have hnot := new_ids_not_seen later
      ((save_seen_projects (.list (seen ++ filter_new_projects all seen))).getD [])
    have hr2 : r2.id ∈ seen_ids (filter_new_projects later
        ((save_seen_projects
          (.list (seen ++ filter_new_projects all seen))).getD [])) := by
      refine mem_seen_ids.mpr ⟨r2, h2, ?_, rfl⟩
      unfold filter_new_projects at h2
      have := (List.mem_filter.mp h2).2
      simp only [newEntryB, Bool.and_eq_true] at this
      exact this.1
    exact hnot r2.id hr2 (hEq ▸ hidstore)

theorem run_once_discards_notify_result_witness :
    (run_once envTimeoutPage (fun _ => true)).1
        = (run_once envTimeoutPage (fun _ => false)).1
    ∧ (run_once envTimeoutPage (fun _ => true)).2.1
        = (run_once envTimeoutPage (fun _ => false)).2.1 :=
  (run_once_discards_notify_result envTimeoutPage (fun _ => true) (fun _ => false)
    [] [Entry.dict (sampleRec "w" "W")] [] (sampleRec "w" "W") (by decide)).1
